import Mathlib

/-!
The configuration record of pynoob, `gatsby-config.js`.

`src/gatsby-config.js` is a single assignment statement

```
module.exports = { plugins: [ { resolve: ..., options: { ... } } ] };
```

The object literal is embedded as a Lean record value (field for field, in
source order), the assignment as a state-passing function on the CommonJS
module object.  The string predicates below (URL shape, path segments) are the
properties the specification states about the record's fields; they are
computable so that every statement about the record is settled by evaluation.
-/

namespace GatsbyConfig

/-! ## Data model: the shape of the object literal -/

/-- One element of `options.navItems`: `{ title: ..., url: ... }`. -/
structure NavItem where
  title : String
  url : String
deriving DecidableEq

/-- The `options` object of a plugin entry (source lines 5-12). -/
structure Options where
  name : String
  description : String
  siteUrl : String
  githubRepositoryURL : String
  navItems : List NavItem
  sections : List String
deriving DecidableEq

/-- One element of `plugins`: `{ resolve: ..., options: ... }` (source lines 3-13). -/
structure Plugin where
  resolve : String
  options : Options
deriving DecidableEq

/-- The exported object: `{ plugins: [...] }` (source lines 1-15). -/
structure Config where
  plugins : List Plugin
deriving DecidableEq

/-! ## The source literal -/

/-- The `options` literal, source lines 5-12. -/
def options : Options where
  name := "PyNoob"
  description := "Your go-to resource for mastering Python. Clear explanations, and practical examples to guide your journey."
  siteUrl := "https://pynoob.vercel.app"
  githubRepositoryURL := "https://github.com/Arnav-2004"
  navItems := [{ title := "Docs", url := "/docs/" }]
  sections := ["Docs", "Quick Docs"]

/-- The `plugins` array literal, source lines 2-14. -/
def plugins : List Plugin :=
  [{ resolve := "smooth-doc", options := options }]

/-- The object literal on the right-hand side of `module.exports = ...`. -/
def exports : Config where
  plugins := plugins

/-- The CommonJS module object as far as the file touches it: its `exports`
slot, which holds either something that is not a configuration record (Node
starts it as the empty object `{}`) or a configuration record. -/
structure Module where
  exports : Option Config
deriving DecidableEq

/-- The file's only statement, `module.exports = { ... };`: it overwrites the
`exports` slot of the module object with the literal and reads nothing. -/
def run (m : Module) : Module :=
  { m with exports := some GatsbyConfig.exports }

/-- What `require("./gatsby-config.js")` returns for a module object `m`: the
`exports` slot after the file has run. -/
def load (m : Module) : Option Config :=
  (run m).exports

/-! ## String predicates used by the statements -/

/-- Drop `pre` from the front of `cs`, when `cs` starts with it. -/
def dropFront : List Char → List Char → Option (List Char)
  | [], cs => some cs
  | _ :: _, [] => none
  | p :: ps, c :: cs => if p = c then dropFront ps cs else none

/-- Whether `cs` starts with `pre`. -/
def startsWith (pre cs : List Char) : Bool :=
  (dropFront pre cs).isSome

/-- The part of an absolute URL after `http://` or `https://`. -/
def afterScheme (cs : List Char) : Option (List Char) :=
  match dropFront "https://".toList cs with
  | some rest => some rest
  | none => dropFront "http://".toList cs

/-- Characters allowed in a host: letters, digits, `.` and `-`. -/
def isHostChar (c : Char) : Bool :=
  c.isAlpha || c.isDigit || c == '.' || c == '-'

/-- The host of what follows the scheme: its longest leading run of host characters. -/
def hostOf (rest : List Char) : List Char :=
  rest.takeWhile isHostChar

/-- What follows the host. -/
def pathOf (rest : List Char) : List Char :=
  rest.dropWhile isHostChar

/-- A well-formed absolute URL: scheme `http` or `https`, then `://`, then a
non-empty host of letters, digits, `.` and `-` with at least one `.`, then
nothing or a path that starts with `/`; no whitespace anywhere. -/
def wellFormedAbsoluteURL (s : String) : Bool :=
  match afterScheme s.toList with
  | none => false
  | some rest =>
    !(hostOf rest).isEmpty
      && (hostOf rest).contains '.'
      && (match pathOf rest with
          | [] => true
          | c :: _ => c == '/')
      && s.toList.all (fun c => !c.isWhitespace)

/-- Split at every `/`: the pieces between the slashes, empty ones included. -/
def splitSlash : List Char → List (List Char)
  | [] => [[]]
  | c :: cs =>
    match splitSlash cs with
    | [] => [[]]
    | seg :: segs => if c = '/' then [] :: seg :: segs else (c :: seg) :: segs

/-- The path segments of a `https://github.com/` URL, as strings; `none` when
the string is not such a URL. -/
def githubPathSegments (s : String) : Option (List String) :=
  match dropFront "https://github.com/".toList s.toList with
  | none => none
  | some path => some ((splitSlash path).map String.mk)

/-- A GitHub repository URL: `https://github.com/<owner>/<repository>` with
both segments non-empty. -/
def isGithubRepositoryURL (s : String) : Bool :=
  match githubPathSegments s with
  | some [owner, repo] => !owner.isEmpty && !repo.isEmpty
  | _ => false

/-- An absolute URL in the sense of the navigation items: begins with
`http://` or `https://`. -/
def isAbsoluteURL (s : String) : Bool :=
  startsWith "http://".toList s.toList || startsWith "https://".toList s.toList

/-- A site-relative path: begins with `/` and not with `//`. -/
def isSiteRelative (s : String) : Bool :=
  startsWith ['/'] s.toList && !startsWith ['/', '/'] s.toList

/-- Whether two consecutive `/` occur in `cs`. -/
def hasDoubleSlash : List Char → Bool
  | '/' :: '/' :: _ => true
  | _ :: cs => hasDoubleSlash cs
  | [] => false

/-- Whether `//` occurs after the scheme separator `://` of an absolute URL
(`false` for a string without a scheme). -/
def doubleSlashAfterScheme (s : String) : Bool :=
  match afterScheme s.toList with
  | none => false
  | some rest => hasDoubleSlash rest

/-- The number of `/` at the front of `s`. -/
def leadingSlashes (s : String) : Nat :=
  (s.toList.takeWhile (fun c => c == '/')).length

/-- Whether the last character of `s` is `/`. -/
def endsWithSlash (s : String) : Bool :=
  s.toList.getLast? == some '/'

/-! ## The record's shape and values -/

/-- Claim C1: the exported record has a `plugins` list of length exactly 1, and
the `resolve` field of that single entry is the string "smooth-doc". -/
theorem plugins_single_smooth_doc :
    GatsbyConfig.exports.plugins.length = 1 ∧
      GatsbyConfig.exports.plugins.map Plugin.resolve = ["smooth-doc"] := by
  decide

/-- Claim C2: whatever module object the file is run on, loading yields a
record whose `plugins[0].options.name` is "PyNoob", whose
`options.navItems[0]` has `title` "Docs" and `url` "/docs/", and whose
`options.sections` is the ordered two-element list `["Docs", "Quick Docs"]`. -/
theorem load_yields_example_values (m : Module) :
    ∃ (c : Config) (p : Plugin) (item : NavItem),
      load m = some c ∧ c.plugins[0]? = some p ∧
        p.options.name = "PyNoob" ∧
        p.options.navItems[0]? = some item ∧
        item.title = "Docs" ∧ item.url = "/docs/" ∧
        p.options.sections = ["Docs", "Quick Docs"] ∧
        p.options.sections.length = 2 :=
  ⟨GatsbyConfig.exports, ⟨"smooth-doc", options⟩, ⟨"Docs", "/docs/"⟩,
    rfl, rfl, rfl, rfl, rfl, rfl, rfl, rfl⟩

/-- Claim C3, evaluated on the source: the `githubRepositoryURL` of the single
plugin entry is "https://github.com/Arnav-2004"; after `https://github.com/`
its path has the one segment "Arnav-2004" (the owner) and no repository
segment, so it is not of the form `https://github.com/<owner>/<repository>`,
whereas "https://github.com/Arnav-2004/pynoob" is. -/
theorem githubRepositoryURL_is_owner_page :
    GatsbyConfig.exports.plugins.map (fun p => p.options.githubRepositoryURL)
        = ["https://github.com/Arnav-2004"] ∧
      GatsbyConfig.exports.plugins.map
          (fun p => githubPathSegments p.options.githubRepositoryURL)
        = [some ["Arnav-2004"]] ∧
      GatsbyConfig.exports.plugins.map
          (fun p => isGithubRepositoryURL p.options.githubRepositoryURL)
        = [false] ∧
      githubPathSegments "https://github.com/Arnav-2004/pynoob"
        = some ["Arnav-2004", "pynoob"] ∧
      isGithubRepositoryURL "https://github.com/Arnav-2004/pynoob" = true := by
  decide

/-- Claim C4: for every plugin entry of the exported record, `options.siteUrl`
and `options.githubRepositoryURL` are both well-formed absolute URLs (scheme
`http` or `https`, `://`, a non-empty host of letters, digits, `.` and `-`
containing a `.`, then nothing or a path starting with `/`, no whitespace). -/
theorem urls_well_formed :
    ∀ p ∈ GatsbyConfig.exports.plugins,
      wellFormedAbsoluteURL p.options.siteUrl = true ∧
        wellFormedAbsoluteURL p.options.githubRepositoryURL = true := by
  decide

/-- The single plugin entry of the source, with its two URLs, as an instance of `urls_well_formed`. -/
theorem urls_well_formed_witness :
    (⟨"smooth-doc", options⟩ : Plugin) ∈ GatsbyConfig.exports.plugins ∧
      wellFormedAbsoluteURL "https://pynoob.vercel.app" = true ∧
      wellFormedAbsoluteURL "https://github.com/Arnav-2004" = true :=
  ⟨List.Mem.head _, urls_well_formed ⟨"smooth-doc", options⟩ (List.Mem.head _)⟩

/-! ## Invariants of the record -/

/-- Claim C5: every string field of the exported record has length greater
than zero: for every plugin entry, `resolve`, `options.name`,
`options.description`, `options.siteUrl`, `options.githubRepositoryURL`, the
`title` and `url` of every entry of `options.navItems`, and every element of
`options.sections`. -/
theorem string_fields_nonempty :
    ∀ p ∈ GatsbyConfig.exports.plugins,
      0 < p.resolve.length ∧ 0 < p.options.name.length ∧
        0 < p.options.description.length ∧ 0 < p.options.siteUrl.length ∧
        0 < p.options.githubRepositoryURL.length ∧
        (∀ item ∈ p.options.navItems, 0 < item.title.length ∧ 0 < item.url.length) ∧
        (∀ s ∈ p.options.sections, 0 < s.length) := by
  decide

/-- The single plugin entry of the source as an instance of `string_fields_nonempty`. -/
theorem string_fields_nonempty_witness :
    (⟨"smooth-doc", options⟩ : Plugin) ∈ GatsbyConfig.exports.plugins ∧
      0 < "smooth-doc".length ∧ 0 < options.name.length ∧
      0 < options.description.length ∧ 0 < options.siteUrl.length ∧
      0 < options.githubRepositoryURL.length ∧
      (∀ item ∈ options.navItems, 0 < item.title.length ∧ 0 < item.url.length) ∧
      (∀ s ∈ options.sections, 0 < s.length) :=
  ⟨List.Mem.head _, string_fields_nonempty ⟨"smooth-doc", options⟩ (List.Mem.head _)⟩

/-- Claim C6: for every plugin entry of the exported record, `options.sections`
is a non-empty list, and the entries at any two distinct indices of it are
different strings (exact, case-sensitive comparison). -/
theorem sections_nonempty_distinct :
    ∀ p ∈ GatsbyConfig.exports.plugins,
      p.options.sections ≠ [] ∧
        ∀ i j : Fin p.options.sections.length,
          i ≠ j → p.options.sections.get i ≠ p.options.sections.get j := by
  decide

/-- The two entries of `sections` of the source, at indices 0 and 1, as an instance of `sections_nonempty_distinct`. -/
theorem sections_nonempty_distinct_witness :
    (⟨"smooth-doc", options⟩ : Plugin) ∈ GatsbyConfig.exports.plugins ∧
      options.sections.get ⟨0, by decide⟩ ≠ options.sections.get ⟨1, by decide⟩ :=
  ⟨List.Mem.head _,
    (sections_nonempty_distinct ⟨"smooth-doc", options⟩ (List.Mem.head _)).2
      ⟨0, by decide⟩ ⟨1, by decide⟩ (by decide)⟩

/-- Claim C7: for every plugin entry of the exported record, `options.navItems`
is a non-empty list and every entry of it has a non-empty `title` and a
non-empty `url`. -/
theorem navItems_nonempty_fields :
    ∀ p ∈ GatsbyConfig.exports.plugins,
      p.options.navItems ≠ [] ∧
        ∀ item ∈ p.options.navItems, item.title ≠ "" ∧ item.url ≠ "" := by
  decide

/-- The single plugin entry of the source as an instance of `navItems_nonempty_fields`. -/
theorem navItems_nonempty_fields_witness :
    (⟨"smooth-doc", options⟩ : Plugin) ∈ GatsbyConfig.exports.plugins ∧
      options.navItems ≠ [] ∧
      ∀ item ∈ options.navItems, item.title ≠ "" ∧ item.url ≠ "" :=
  ⟨List.Mem.head _, navItems_nonempty_fields ⟨"smooth-doc", options⟩ (List.Mem.head _)⟩

/-- Claim C8: for every entry of `options.navItems` of every plugin entry, the
`url` either begins with `http://` or `https://`, or begins with `/` and not
with `//`. -/
theorem navItems_url_absolute_or_relative :
    ∀ p ∈ GatsbyConfig.exports.plugins, ∀ item ∈ p.options.navItems,
      isAbsoluteURL item.url = true ∨ isSiteRelative item.url = true := by
  decide

/-- The navigation entry "Docs" of the source as an instance of `navItems_url_absolute_or_relative`. -/
theorem navItems_url_absolute_or_relative_witness :
    (⟨"smooth-doc", options⟩ : Plugin) ∈ GatsbyConfig.exports.plugins ∧
      (⟨"Docs", "/docs/"⟩ : NavItem) ∈ options.navItems ∧
      (isAbsoluteURL "/docs/" = true ∨ isSiteRelative "/docs/" = true) :=
  ⟨List.Mem.head _, List.Mem.head _,
    navItems_url_absolute_or_relative ⟨"smooth-doc", options⟩ (List.Mem.head _)
      ⟨"Docs", "/docs/"⟩ (List.Mem.head _)⟩

/-! ## Loading -/

/-- Claim C9: loading takes nothing from the module object it runs on: for any
two module objects the load returns a record, the same literal record both
times, so the two results are equal, with equal plugin lists; loading again on
the module object left by a first load returns that record once more. -/
theorem load_deterministic (m₁ m₂ : Module) :
    load m₁ = some GatsbyConfig.exports ∧ load m₂ = load m₁ ∧
      (load m₁).map Config.plugins = (load m₂).map Config.plugins ∧
      load (run m₁) = load m₁ ∧ run (run m₁) = run m₁ :=
  ⟨rfl, rfl, rfl, rfl, rfl⟩

/-! ## Composition of the site URL with the navigation URLs -/

/-- Claim C10: for every plugin entry of the exported record, `options.siteUrl`
does not end with `/`; every site-relative `url` of `options.navItems` begins
with exactly one `/`, and `siteUrl` followed by it has no `//` after the scheme
separator; and `siteUrl` followed by the `url` of `navItems[0]` is
"https://pynoob.vercel.app/docs/". -/
theorem siteUrl_composes_with_navItems :
    ∀ p ∈ GatsbyConfig.exports.plugins,
      endsWithSlash p.options.siteUrl = false ∧
        (∀ item ∈ p.options.navItems, isSiteRelative item.url = true →
          leadingSlashes item.url = 1 ∧
            doubleSlashAfterScheme (p.options.siteUrl ++ item.url) = false) ∧
        p.options.navItems[0]?.map (fun item => p.options.siteUrl ++ item.url)
          = some "https://pynoob.vercel.app/docs/" := by
  decide

/-- The navigation entry "Docs" of the source, a site-relative one, as an instance of `siteUrl_composes_with_navItems`. -/
theorem siteUrl_composes_with_navItems_witness :
    (⟨"smooth-doc", options⟩ : Plugin) ∈ GatsbyConfig.exports.plugins ∧
      (⟨"Docs", "/docs/"⟩ : NavItem) ∈ options.navItems ∧
      isSiteRelative "/docs/" = true ∧
      leadingSlashes "/docs/" = 1 ∧
      doubleSlashAfterScheme ("https://pynoob.vercel.app" ++ "/docs/") = false :=
  ⟨List.Mem.head _, List.Mem.head _, by decide,
    (siteUrl_composes_with_navItems ⟨"smooth-doc", options⟩ (List.Mem.head _)).2.1
      ⟨"Docs", "/docs/"⟩ (List.Mem.head _) (by decide)⟩

end GatsbyConfig
